import Mathlib

/-!
Verification of the test-liquidation Anchor program
(`src/test-liquidation/programs/test-liquidation/src/lib.rs`).

The program holds one account record type, `Position`, and two instruction
handlers: `create_risky_position`, which writes two hard-coded `u64` amounts
and the signing user's public key into a fresh record, and `liquidate`, which
requires `borrowed_amount > collateral_amount` and on success zeroes both
amount fields.  No arithmetic is performed on the `u64` fields (they are only
assigned constants below `2^64` and compared), so they are embedded as `Nat`;
public keys are opaque identities, embedded as `Nat`.
-/

namespace TestLiquidation

/-- An account identity (Solana `Pubkey`), modelled as an opaque natural. -/
abbrev Pubkey := Nat

/-- The `Position` account record: `owner: Pubkey`,
`collateral_amount: u64`, `borrowed_amount: u64`. -/
structure Position where
  owner : Pubkey
  collateral_amount : Nat
  borrowed_amount : Nat
  deriving DecidableEq, Repr

/-- The program's `#[error_code]` enum: its single variant carries the
message "Position is not liquidatable". -/
inductive LiquidationError where
  | NotLiquidatable
  deriving DecidableEq, Repr

/-- `create_risky_position`: sets `collateral_amount = 100_000_000`,
`borrowed_amount = 200_000_000`, and `owner = ctx.accounts.user.key()`. -/
def create_risky_position (user : Pubkey) : Position :=
  { owner := user
    collateral_amount := 100000000
    borrowed_amount := 200000000 }

/-- `liquidate` acting on the position record alone:
`require!(borrowed_amount > collateral_amount, NotLiquidatable)`, then both
amount fields are set to `0`. -/
def liquidate (position : Position) : Except LiquidationError Position :=
  if position.borrowed_amount > position.collateral_amount then
    Except.ok { position with collateral_amount := 0, borrowed_amount := 0 }
  else
    Except.error LiquidationError.NotLiquidatable

/-- The account set declared by the `Liquidate` accounts struct: the mutable
`position` record and the signing `liquidator`. -/
structure LiquidateAccounts where
  position : Position
  liquidator : Pubkey
  deriving DecidableEq, Repr

/-- The `liquidate` handler acting on its full declared account set.  The
handler body reads and writes only `ctx.accounts.position`; the `liquidator`
signer is never touched. -/
def liquidateCtx (accounts : LiquidateAccounts) : Except LiquidationError LiquidateAccounts :=
  if accounts.position.borrowed_amount > accounts.position.collateral_amount then
    Except.ok { accounts with
      position := { accounts.position with collateral_amount := 0, borrowed_amount := 0 } }
  else
    Except.error LiquidationError.NotLiquidatable

/-- The persistent effect of submitting one `liquidate` instruction: on
success the stored record is replaced, on failure the transaction aborts and
the stored record is unchanged. -/
def liquidateStep (p : Position) : Position :=
  match liquidate p with
  | Except.ok q => q
  | Except.error _ => p

/-- The stored record after submitting `n` further `liquidate` instructions. -/
def liquidateSeq : Nat → Position → Position
  | 0, p => p
  | n + 1, p => liquidateSeq n (liquidateStep p)

/-- Position states reachable through the fixture's two operations:
a freshly created record, or the result of a successful liquidation of a
reachable record. -/
inductive Reachable : Position → Prop where
  | created (user : Pubkey) : Reachable (create_risky_position user)
  | liquidated {p q : Position} : Reachable p → liquidate p = Except.ok q → Reachable q

/-- Helper: a successful `liquidate` zeroes both amount fields and keeps the
owner, and can only happen when the guard held. -/
theorem liquidate_ok_dest {p q : Position} (h : liquidate p = Except.ok q) :
    q.collateral_amount = 0 ∧ q.borrowed_amount = 0 ∧ q.owner = p.owner ∧
      p.borrowed_amount > p.collateral_amount := by
  unfold liquidate at h
  by_cases hc : p.borrowed_amount > p.collateral_amount
  · rw [if_pos hc] at h
    cases h
    exact ⟨rfl, rfl, rfl, hc⟩
  · rw [if_neg hc] at h
    cases h

/-- Helper: when the guard fails, `liquidate` returns the
`NotLiquidatable` error. -/
theorem liquidate_guard_fails {p : Position}
    (h : p.borrowed_amount ≤ p.collateral_amount) :
    liquidate p = Except.error LiquidationError.NotLiquidatable := by
  unfold liquidate
  rw [if_neg (Nat.not_lt.mpr h)]

/-- C1: every position with `borrowed_amount > collateral_amount` is
successfully liquidated, and the resulting record has
`collateral_amount = 0` and `borrowed_amount = 0`. -/
theorem liquidate_success_zeroes (p : Position)
    (h : p.borrowed_amount > p.collateral_amount) :
    ∃ q, liquidate p = Except.ok q ∧ q.collateral_amount = 0 ∧ q.borrowed_amount = 0 := by
  refine ⟨{ p with collateral_amount := 0, borrowed_amount := 0 }, ?_, rfl, rfl⟩
  unfold liquidate
  rw [if_pos h]

/-- Witness for C1 at the concrete position `⟨7, 100000000, 200000000⟩`. -/
theorem liquidate_success_zeroes_witness :
    (Position.mk 7 100000000 200000000).borrowed_amount >
        (Position.mk 7 100000000 200000000).collateral_amount ∧
      ∃ q, liquidate (Position.mk 7 100000000 200000000) = Except.ok q ∧
        q.collateral_amount = 0 ∧ q.borrowed_amount = 0 :=
  ⟨by decide, liquidate_success_zeroes (Position.mk 7 100000000 200000000) (by decide)⟩

/-- C2: every position with `borrowed_amount ≤ collateral_amount` (including
the already-liquidated all-zero state) fails to liquidate with the
`NotLiquidatable` error, and the stored record is left unchanged. -/
theorem liquidate_fails_unchanged (p : Position)
    (h : p.borrowed_amount ≤ p.collateral_amount) :
    liquidate p = Except.error LiquidationError.NotLiquidatable ∧ liquidateStep p = p := by
  have he := liquidate_guard_fails h
  refine ⟨he, ?_⟩
  unfold liquidateStep
  rw [he]

/-- Witness for C2 at the already-liquidated position `⟨3, 0, 0⟩`. -/
theorem liquidate_fails_unchanged_witness :
    (Position.mk 3 0 0).borrowed_amount ≤ (Position.mk 3 0 0).collateral_amount ∧
      (liquidate (Position.mk 3 0 0) = Except.error LiquidationError.NotLiquidatable ∧
        liquidateStep (Position.mk 3 0 0) = Position.mk 3 0 0) :=
  ⟨by decide, liquidate_fails_unchanged (Position.mk 3 0 0) (by decide)⟩

/-- C3: for every creator identity, creating a position yields
`collateral_amount = 100_000_000`, `borrowed_amount = 200_000_000`, and
`owner` equal to the creator. -/
theorem create_risky_position_spec (user : Pubkey) :
    (create_risky_position user).collateral_amount = 100000000 ∧
      (create_risky_position user).borrowed_amount = 200000000 ∧
      (create_risky_position user).owner = user :=
  ⟨rfl, rfl, rfl⟩

/-- C4: `liquidate` fails exactly when `borrowed_amount` does not exceed
`collateral_amount`, and the only error it ever raises is
`NotLiquidatable`. -/
theorem liquidate_failure_characterisation (p : Position) :
    ((∃ e, liquidate p = Except.error e) ↔
        ¬ p.borrowed_amount > p.collateral_amount) ∧
      ∀ e, liquidate p = Except.error e → e = LiquidationError.NotLiquidatable := by
  constructor
  · constructor
    · rintro ⟨e, he⟩ hc
      unfold liquidate at he
      rw [if_pos hc] at he
      cases he
    · intro hc
      refine ⟨LiquidationError.NotLiquidatable, ?_⟩
      unfold liquidate
      rw [if_neg hc]
  · intro e _
    cases e
    rfl

/-- C5: a successful liquidation changes only the two amount fields; in
particular the `owner` field is unchanged. -/
theorem liquidate_preserves_owner (p q : Position)
    (h : liquidate p = Except.ok q) :
    q.owner = p.owner ∧ q = { p with collateral_amount := 0, borrowed_amount := 0 } := by
  unfold liquidate at h
  by_cases hc : p.borrowed_amount > p.collateral_amount
  · rw [if_pos hc] at h
    cases h
    exact ⟨rfl, rfl⟩
  · rw [if_neg hc] at h
    cases h

/-- Witness for C5 at the concrete position `⟨42, 5, 9⟩`. -/
theorem liquidate_preserves_owner_witness :
    liquidate (Position.mk 42 5 9) = Except.ok (Position.mk 42 0 0) ∧
      ((Position.mk 42 0 0).owner = (Position.mk 42 5 9).owner ∧
        Position.mk 42 0 0 =
          { Position.mk 42 5 9 with collateral_amount := 0, borrowed_amount := 0 }) :=
  ⟨rfl, liquidate_preserves_owner (Position.mk 42 5 9) (Position.mk 42 0 0) rfl⟩

/-- C6: every freshly created position satisfies
`borrowed_amount > collateral_amount`, i.e. it is liquidatable. -/
theorem create_risky_position_liquidatable (user : Pubkey) :
    (create_risky_position user).borrowed_amount >
      (create_risky_position user).collateral_amount := by
  show (100000000 : Nat) < 200000000
  decide

/-- C7: once both amount fields are zero, every further `liquidate` fails
with `NotLiquidatable` and no sequence of further `liquidate` instructions
ever changes the stored record. -/
theorem liquidated_position_immutable (p : Position)
    (h0 : p.collateral_amount = 0) (h1 : p.borrowed_amount = 0) (n : Nat) :
    liquidateSeq n p = p ∧
      liquidate (liquidateSeq n p) = Except.error LiquidationError.NotLiquidatable := by
  have hle : p.borrowed_amount ≤ p.collateral_amount := by rw [h0, h1]
  have hstep : liquidateStep p = p := by
    unfold liquidateStep
    rw [liquidate_guard_fails hle]
  have hseq : liquidateSeq n p = p := by
    induction n with
    | zero => rfl
    | succ m ih =>
      show liquidateSeq m (liquidateStep p) = p
      rw [hstep]
      exact ih
  refine ⟨hseq, ?_⟩
  rw [hseq]
  exact liquidate_guard_fails hle

/-- Witness for C7 at the all-zero position `⟨9, 0, 0⟩` with three further
liquidation attempts. -/
theorem liquidated_position_immutable_witness :
    liquidateSeq 3 (Position.mk 9 0 0) = Position.mk 9 0 0 ∧
      liquidate (liquidateSeq 3 (Position.mk 9 0 0)) =
        Except.error LiquidationError.NotLiquidatable :=
  liquidated_position_immutable (Position.mk 9 0 0) (by decide) (by decide) 3

/-- C8: every position state reachable through the fixture's two operations
has its amount pair equal to `(100_000_000, 200_000_000)` (freshly created)
or `(0, 0)` (liquidated). -/
theorem position_amount_invariant (p : Position) (h : Reachable p) :
    p.collateral_amount = 100000000 ∧ p.borrowed_amount = 200000000 ∨
      p.collateral_amount = 0 ∧ p.borrowed_amount = 0 := by
  induction h with
  | created user => exact Or.inl ⟨rfl, rfl⟩
  | liquidated _ hq _ =>
    obtain ⟨hc, hb, _, _⟩ := liquidate_ok_dest hq
    exact Or.inr ⟨hc, hb⟩

/-- Witness for C8 at the freshly created position of user `0`. -/
theorem position_amount_invariant_witness :
    (create_risky_position 0).collateral_amount = 100000000 ∧
        (create_risky_position 0).borrowed_amount = 200000000 ∨
      (create_risky_position 0).collateral_amount = 0 ∧
        (create_risky_position 0).borrowed_amount = 0 :=
  position_amount_invariant (create_risky_position 0) (Reachable.created 0)

/-- C9: the outcome of `liquidate` — success or error, and the resulting
position record — is the same for any two liquidator identities applied to
the same position state; the liquidator is never required to relate to the
position's owner. -/
theorem liquidate_liquidator_irrelevant (p : Position) (a b : Pubkey) :
    Except.map LiquidateAccounts.position (liquidateCtx (LiquidateAccounts.mk p a)) =
      Except.map LiquidateAccounts.position (liquidateCtx (LiquidateAccounts.mk p b)) := by
  unfold liquidateCtx
  by_cases hc : p.borrowed_amount > p.collateral_amount
  · rw [if_pos hc, if_pos hc]
    rfl
  · rw [if_neg hc, if_neg hc]

/-- C10: a successful `liquidate` writes only the position record: the
liquidator account is left unmodified by the handler. -/
theorem liquidate_modifies_only_position (accounts accounts' : LiquidateAccounts)
    (h : liquidateCtx accounts = Except.ok accounts') :
    accounts'.liquidator = accounts.liquidator ∧
      accounts'.position =
        { accounts.position with collateral_amount := 0, borrowed_amount := 0 } := by
  unfold liquidateCtx at h
  by_cases hc : accounts.position.borrowed_amount > accounts.position.collateral_amount
  · rw [if_pos hc] at h
    cases h
    exact ⟨rfl, rfl⟩
  · rw [if_neg hc] at h
    cases h

/-- Witness for C10 at the concrete account set `⟨⟨1, 2, 3⟩, 55⟩`. -/
theorem liquidate_modifies_only_position_witness :
    liquidateCtx (LiquidateAccounts.mk (Position.mk 1 2 3) 55) =
        Except.ok (LiquidateAccounts.mk (Position.mk 1 0 0) 55) ∧
      ((LiquidateAccounts.mk (Position.mk 1 0 0) 55).liquidator =
          (LiquidateAccounts.mk (Position.mk 1 2 3) 55).liquidator ∧
        (LiquidateAccounts.mk (Position.mk 1 0 0) 55).position =
          { (LiquidateAccounts.mk (Position.mk 1 2 3) 55).position with
              collateral_amount := 0, borrowed_amount := 0 }) :=
  ⟨rfl,
    liquidate_modifies_only_position (LiquidateAccounts.mk (Position.mk 1 2 3) 55)
      (LiquidateAccounts.mk (Position.mk 1 0 0) 55) rfl⟩

end TestLiquidation
